import Mathlib

/-!
Shallow embedding of the butterflyrs 6502 emulator core
(src/register/mod.rs, src/cpu/mod.rs, src/cpu/addressing.rs,
src/cpu/instructions.rs, src/bus/mod.rs).

Machine integers are modelled as Nat with explicit reduction modulo the
bit width where the Rust code performs wrapping u8/u16 arithmetic.  The
bus owned by the CPU is modelled as a total byte memory function inside
the CPU state (the CPU-level claims stipulate the addresses involved are
backed by read-write memory); the device-list bus of src/bus/mod.rs is
modelled separately for the bus-dispatch claims.  Mutating Rust methods
become pure functions from the CPU state to a new CPU state (paired with
their return value where the source returns one).
-/

/-- Wrapping u8 addition: AddAssign for Register8 (src/register/mod.rs). -/
def reg8Add (v rhs : Nat) : Nat := (v + rhs) % 256

/-- Wrapping u8 subtraction: Register8::sub_assign (src/register/mod.rs). -/
def reg8Sub (v rhs : Nat) : Nat := (v % 256 + 256 - rhs % 256) % 256

/-- Wrapping u16 addition: AddAssign for Register16 (src/register/mod.rs). -/
def reg16Add (v rhs : Nat) : Nat := (v + rhs) % 65536

/-- Register8::remove: value &= !mask (src/register/mod.rs). -/
def reg8Remove (v mask : Nat) : Nat := v &&& (255 ^^^ mask)

/-- Register8::contains: value & mask != 0 (src/register/mod.rs). -/
def reg8Contains (v mask : Nat) : Bool := (v &&& mask) != 0

/-- The addressing-mode enumeration (src/cpu/addressing.rs). -/
inductive AddressingMode where
  | none
  | absolute
  | absoluteX
  | absoluteY
  | immediate
  | implied
  | indirect
  | indexedIndirect
  | indirectIndexed
  | relative
  | zeroPage
  | zeroPageX
  | zeroPageY
deriving DecidableEq, Repr

-- Status-flag bit masks (bitflags StatusFlags in src/cpu/mod.rs).
namespace StatusFlags

def Carry : Nat := 0x01
def Zero : Nat := 0x02
def InterruptDisable : Nat := 0x04
def DecimalMode : Nat := 0x08
def Break : Nat := 0x10
def Unused : Nat := 0x20
def Overflow : Nat := 0x40
def Negative : Nat := 0x80

end StatusFlags

/-- Interrupt vector addresses (src/cpu/addresses.rs). -/
def NMI_VECTOR : Nat := 0xFFFA

/-- Reset vector address (src/cpu/addresses.rs). -/
def RESET_VECTOR : Nat := 0xFFFC

/-- IRQ vector address (src/cpu/addresses.rs). -/
def IRQ_VECTOR : Nat := 0xFFFE

/-- The CPU state (struct Cpu in src/cpu/mod.rs).  The bus the CPU owns
is modelled as the total byte memory `mem`; the debug/disassembly string
fields of the source have no effect on machine state and are omitted. -/
structure Cpu where
  a : Nat
  x : Nat
  y : Nat
  p : Nat
  sp : Nat
  pc : Nat
  cycles : Nat
  address_absolute : Nat
  address_relative : Nat
  address_mode : AddressingMode
  opcode : Nat
  fetched_data : Nat
  mem : Nat → Nat

namespace Cpu

/-- Cpu::read8 via MainBus: the address is a u16 and the returned value a
u8, so both are reduced to their bit width. -/
def read8 (c : Cpu) (address : Nat) : Nat := c.mem (address % 65536) % 256

/-- Cpu::write8 via MainBus (the claims that use it stipulate the target
address is backed by a read-write memory device). -/
def write8 (c : Cpu) (address value : Nat) : Cpu :=
  { c with mem := fun a => if a = address % 65536 then value % 256 else c.mem a }

/-- Cpu::read16: low byte at `address`, high byte at `address + 1` with
u16 wrapping addition. -/
def read16 (c : Cpu) (address : Nat) : Nat :=
  (c.read8 (reg16Add address 1)) <<< 8 ||| c.read8 address

/-- Cpu::set_flag.  Note the source calls Register8::set, which replaces
the whole status register with exactly the given mask when `value` is
true; only the `false` branch is a single-bit update. -/
def set_flag (c : Cpu) (flag : Nat) (value : Bool) : Cpu :=
  if value then { c with p := flag } else { c with p := reg8Remove c.p flag }

/-- Cpu::get_flag. -/
def get_flag (c : Cpu) (flag : Nat) : Bool := reg8Contains c.p flag

/-- Cpu::increment_sp: wrapping increment, then the source additionally
forces the value to 0xFF whenever the incremented value is 0x00. -/
def increment_sp (c : Cpu) : Cpu :=
  let c := { c with sp := reg8Add c.sp 1 }
  if c.sp = 0x00 then { c with sp := 0xFF } else c

/-- Cpu::decrement_sp: wrapping decrement, then the source additionally
forces the value to 0x00 whenever the decremented value is 0xFF. -/
def decrement_sp (c : Cpu) : Cpu :=
  let c := { c with sp := reg8Sub c.sp 1 }
  if c.sp = 0xFF then { c with sp := 0x00 } else c

/-- Cpu::push: write at 0x100 + sp, then decrement sp. -/
def push (c : Cpu) (value : Nat) : Cpu :=
  (c.write8 (0x100 + c.sp) value).decrement_sp

/-- Cpu::push_word: push the high byte, then the low byte. -/
def push_word (c : Cpu) (value : Nat) : Cpu :=
  (c.push ((value >>> 8) &&& 0xFF)).push (value &&& 0xFF)

/-- Cpu::pop: increment sp, then read at 0x100 + sp. -/
def pop (c : Cpu) : Cpu × Nat :=
  let c := c.increment_sp
  (c, c.read8 (0x100 + c.sp))

/-- Cpu::pop_word: pop the low byte, then the high byte. -/
def pop_word (c : Cpu) : Cpu × Nat :=
  let (c, lo) := c.pop
  let (c, hi) := c.pop
  (c, hi <<< 8 ||| lo)

/-- Cpu::set_zn_flags. -/
def set_zn_flags (c : Cpu) (value : Nat) : Cpu :=
  let c := c.set_flag StatusFlags.Zero (value == 0)
  c.set_flag StatusFlags.Negative ((value &&& 0x80) != 0)

/-- Cpu::fetch: refresh fetched_data from the absolute address unless the
addressing mode is Implied. -/
def fetch (c : Cpu) : Cpu :=
  if c.address_mode ≠ AddressingMode.implied then
    { c with fetched_data := c.read8 c.address_absolute }
  else c

/-- Cpu::reset (the cycle counter is not touched by the source reset). -/
def reset (c : Cpu) : Cpu :=
  let c := { c with a := 0x00, x := 0x00, y := 0x00 }
  let c := { c with p := 0 ||| StatusFlags.Unused ||| StatusFlags.InterruptDisable }
  let c := { c with sp := 0xFD }
  { c with pc := c.read16 RESET_VECTOR }

/-- Cpu::do_interrupt: push pc, manipulate flags, push status, load the
vector, charge 7 cycles.  The source clears InterruptDisable again after
pushing the status register. -/
def do_interrupt (c : Cpu) (vector : Nat) : Cpu :=
  let c := c.push_word c.pc
  let c := c.set_flag StatusFlags.Break false
  let c := c.set_flag StatusFlags.Unused true
  let c := c.set_flag StatusFlags.Break true
  let c := c.set_flag StatusFlags.InterruptDisable true
  let c := c.push c.p
  let c := c.set_flag StatusFlags.InterruptDisable false
  let c := { c with pc := c.read16 vector }
  { c with cycles := 7 }

/-- Cpu::irq: service the interrupt only when InterruptDisable is clear. -/
def irq (c : Cpu) : Cpu :=
  if ¬ c.get_flag StatusFlags.InterruptDisable then c.do_interrupt IRQ_VECTOR
  else c

/-- Cpu::nmi: service unconditionally. -/
def nmi (c : Cpu) : Cpu := c.do_interrupt NMI_VECTOR

end Cpu

/-- AddressingMode::execute (src/cpu/addressing.rs): resolve the operand
location, advance pc, and report whether an extra cycle is owed. -/
def AddressingMode.execute (mode : AddressingMode) (c : Cpu) : Cpu × Bool :=
  match mode with
  | .none => (c, false)
  | .absolute =>
      let address := c.read16 c.pc
      let c := { c with address_absolute := address, pc := reg16Add c.pc 2 }
      (c, false)
  | .absoluteX =>
      let address := c.read16 c.pc
      let c := { c with address_absolute := reg16Add address c.x, pc := reg16Add c.pc 2 }
      (c, (c.address_absolute &&& 0xFF00) != (address &&& 0xFF00))
  | .absoluteY =>
      let address := c.read16 c.pc
      let c := { c with address_absolute := reg16Add address c.y, pc := reg16Add c.pc 2 }
      (c, (c.address_absolute &&& 0xFF00) != (address &&& 0xFF00))
  | .immediate =>
      ({ c with address_absolute := c.pc, pc := reg16Add c.pc 1 }, false)
  | .implied =>
      ({ c with fetched_data := c.a }, false)
  | .indirect =>
      let addr_lo := c.read8 c.pc
      let addr_hi := c.read8 (reg16Add c.pc 1)
      let addr := (addr_hi <<< 8) ||| addr_lo
      let c :=
        if addr_lo = 0x00FF then
          { c with address_absolute := (c.read8 (addr &&& 0xFF00)) <<< 8 ||| c.read8 addr }
        else
          { c with address_absolute := (c.read8 (reg16Add addr 1)) <<< 8 ||| c.read8 addr }
      ({ c with pc := reg16Add c.pc 2 }, false)
  | .indexedIndirect =>
      let temp := c.read8 c.pc
      let lo := c.read8 (temp + c.x)
      let hi := c.read8 (temp + c.x + 1)
      let c := { c with address_absolute := (hi <<< 8) ||| lo, pc := reg16Add c.pc 1 }
      (c, false)
  | .indirectIndexed =>
      let temp := c.read8 c.pc
      let lo := c.read8 temp
      let hi := c.read8 (temp + 1)
      let c := { c with address_absolute := (hi <<< 8) ||| lo, pc := reg16Add c.pc 1 }
      (c, (c.address_absolute &&& 0xFF00) != (hi <<< 8))
  | .relative =>
      let c := { c with address_relative := c.read8 c.pc, pc := reg16Add c.pc 1 }
      if c.address_relative &&& 0x80 > 0 then
        ({ c with address_relative := c.address_relative ||| 0xFF00 }, false)
      else (c, false)
  | .zeroPage =>
      ({ c with address_absolute := (c.read8 c.pc) &&& 0x00FF, pc := reg16Add c.pc 1 }, false)
  | .zeroPageX =>
      ({ c with address_absolute := (c.read8 c.pc + c.x) &&& 0x00FF, pc := reg16Add c.pc 1 }, false)
  | .zeroPageY =>
      ({ c with address_absolute := (c.read8 c.pc + c.y) &&& 0x00FF, pc := reg16Add c.pc 1 }, false)

/-- Tags naming the per-instruction handler functions referenced by the
`function` field of the instruction table (src/cpu/instructions.rs).
The tags `andOp` and `decOp` stand for the source handlers `and` and
`dec`; `rorA` stands for `ror_a`. -/
inductive HandlerTag where
  | adc | ahx | alr | anc | andOp | arr | asl | axs | bcc | bcs | beq | bit
  | bmi | bne | bpl | brk | bvc | bvs | clc | cld | cli | clv | cmp | cpx
  | cpy | dcp | decOp | dex | dey | eor | inc | inx | iny | isc | jmp | jsr
  | kil | las | lax | lda | ldx | ldy | lsr | nop | ora | pha | php | pla
  | plp | rla | rol | ror | rorA | rra | rti | rts | sax | sbc | sec | sed
  | sei | shx | shy | slo | sre | sta | stx | sty | tas | tax | tay | tsx
  | txa | txs | tya | xaa
deriving DecidableEq, Repr

/-- Handler lda (src/cpu/instructions.rs): fetch, load the accumulator,
update zero/negative, and report 1 extra cycle. -/
def lda (c : Cpu) : Cpu × Nat :=
  let c := c.fetch
  let c := { c with a := c.fetched_data }
  let c := c.set_zn_flags c.a
  (c, 1)

/-- Handler jmp (src/cpu/instructions.rs): set pc to the absolute
address computed by the addressing mode. -/
def jmp (c : Cpu) : Cpu × Nat :=
  ({ c with pc := c.address_absolute }, 0)

/-- Handler sta (src/cpu/instructions.rs): write the accumulator to the
absolute address. -/
def sta (c : Cpu) : Cpu × Nat :=
  (c.write8 c.address_absolute c.a, 0)

/-- Handler ror_a (src/cpu/instructions.rs): rotate the accumulator
right through carry and update carry/zero/negative. -/
def ror_a (c : Cpu) : Cpu × Nat :=
  let c := c.fetch
  let temp := c.fetched_data
  let temp := if c.get_flag StatusFlags.Carry then temp ||| 0x100 else temp
  let c := c.set_flag StatusFlags.Carry ((temp &&& 0x01) > 0)
  let temp := temp >>> 1
  let temp := temp &&& 0xFF
  let c := c.set_zn_flags temp
  ({ c with a := temp }, 0)

/-- Dispatch a handler tag to its handler.  Every handler of the source
not matched explicitly below is a TODO stub that leaves the CPU
unchanged and returns 0 extra cycles. -/
def runHandler (tag : HandlerTag) (c : Cpu) : Cpu × Nat :=
  match tag with
  | .lda => lda c
  | .jmp => jmp c
  | .sta => sta c
  | .rorA => ror_a c
  | _ => (c, 0)

/-- One row of the instruction table (struct Instruction in
src/cpu/instructions.rs). -/
structure Instruction where
  illegal : Bool
  opcode : Nat
  name : String
  mode : AddressingMode
  cycles : Nat
  function : HandlerTag
deriving Repr

def instrRows0 : List Instruction := [
  Instruction.mk false 0x00 "BRK" AddressingMode.immediate 7 HandlerTag.brk,
  Instruction.mk false 0x01 "ORA" AddressingMode.indexedIndirect 6 HandlerTag.ora,
  Instruction.mk true 0x02 "KIL" AddressingMode.implied 2 HandlerTag.kil,
  Instruction.mk true 0x03 "SLO" AddressingMode.indexedIndirect 8 HandlerTag.slo,
  Instruction.mk false 0x04 "NOP" AddressingMode.zeroPage 3 HandlerTag.nop,
  Instruction.mk false 0x05 "ORA" AddressingMode.zeroPage 3 HandlerTag.ora,
  Instruction.mk false 0x06 "ASL" AddressingMode.zeroPage 5 HandlerTag.asl,
  Instruction.mk true 0x07 "SLO" AddressingMode.zeroPage 5 HandlerTag.slo,
  Instruction.mk false 0x08 "PHP" AddressingMode.implied 3 HandlerTag.php,
  Instruction.mk false 0x09 "ORA" AddressingMode.immediate 2 HandlerTag.ora,
  Instruction.mk false 0x0A "ASL" AddressingMode.implied 2 HandlerTag.asl,
  Instruction.mk true 0x0B "ANC" AddressingMode.immediate 2 HandlerTag.anc,
  Instruction.mk false 0x0C "NOP" AddressingMode.absolute 4 HandlerTag.nop,
  Instruction.mk false 0x0D "ORA" AddressingMode.absolute 4 HandlerTag.ora,
  Instruction.mk false 0x0E "ASL" AddressingMode.absolute 6 HandlerTag.asl,
  Instruction.mk true 0x0F "SLO" AddressingMode.absolute 6 HandlerTag.slo,
  Instruction.mk false 0x10 "BPL" AddressingMode.relative 2 HandlerTag.bpl,
  Instruction.mk false 0x11 "ORA" AddressingMode.indirectIndexed 5 HandlerTag.ora,
  Instruction.mk true 0x12 "KIL" AddressingMode.implied 2 HandlerTag.kil,
  Instruction.mk true 0x13 "SLO" AddressingMode.indirectIndexed 8 HandlerTag.slo,
  Instruction.mk false 0x14 "NOP" AddressingMode.zeroPageX 4 HandlerTag.nop,
  Instruction.mk false 0x15 "ORA" AddressingMode.zeroPageX 4 HandlerTag.ora,
  Instruction.mk false 0x16 "ASL" AddressingMode.zeroPageX 6 HandlerTag.asl,
  Instruction.mk true 0x17 "SLO" AddressingMode.zeroPageX 6 HandlerTag.slo,
  Instruction.mk false 0x18 "CLC" AddressingMode.implied 2 HandlerTag.clc,
  Instruction.mk false 0x19 "ORA" AddressingMode.absoluteY 4 HandlerTag.ora,
  Instruction.mk false 0x1A "NOP" AddressingMode.implied 2 HandlerTag.nop,
  Instruction.mk true 0x1B "SLO" AddressingMode.absoluteY 7 HandlerTag.slo,
  Instruction.mk false 0x1C "NOP" AddressingMode.absoluteX 4 HandlerTag.nop,
  Instruction.mk false 0x1D "ORA" AddressingMode.absoluteX 4 HandlerTag.ora,
  Instruction.mk false 0x1E "ASL" AddressingMode.absoluteX 7 HandlerTag.asl,
  Instruction.mk true 0x1F "SLO" AddressingMode.absoluteX 7 HandlerTag.slo
]

def instrRows1 : List Instruction := [
  Instruction.mk false 0x20 "JSR" AddressingMode.absolute 6 HandlerTag.jsr,
  Instruction.mk false 0x21 "AND" AddressingMode.indexedIndirect 6 HandlerTag.andOp,
  Instruction.mk true 0x22 "KIL" AddressingMode.implied 2 HandlerTag.kil,
  Instruction.mk true 0x23 "RLA" AddressingMode.indexedIndirect 8 HandlerTag.rla,
  Instruction.mk false 0x24 "BIT" AddressingMode.zeroPage 3 HandlerTag.bit,
  Instruction.mk false 0x25 "AND" AddressingMode.zeroPage 3 HandlerTag.andOp,
  Instruction.mk false 0x26 "ROL" AddressingMode.zeroPage 5 HandlerTag.rol,
  Instruction.mk true 0x27 "RLA" AddressingMode.zeroPage 5 HandlerTag.rla,
  Instruction.mk false 0x28 "PLP" AddressingMode.implied 4 HandlerTag.plp,
  Instruction.mk false 0x29 "AND" AddressingMode.immediate 2 HandlerTag.andOp,
  Instruction.mk false 0x2A "ROL" AddressingMode.implied 2 HandlerTag.rol,
  Instruction.mk true 0x2B "ANC" AddressingMode.immediate 2 HandlerTag.anc,
  Instruction.mk false 0x2C "BIT" AddressingMode.absolute 4 HandlerTag.bit,
  Instruction.mk false 0x2D "AND" AddressingMode.absolute 4 HandlerTag.andOp,
  Instruction.mk false 0x2E "ROL" AddressingMode.absolute 6 HandlerTag.rol,
  Instruction.mk true 0x2F "RLA" AddressingMode.absolute 6 HandlerTag.rla,
  Instruction.mk false 0x30 "BMI" AddressingMode.relative 2 HandlerTag.bmi,
  Instruction.mk false 0x31 "AND" AddressingMode.indirectIndexed 5 HandlerTag.andOp,
  Instruction.mk true 0x32 "KIL" AddressingMode.implied 2 HandlerTag.kil,
  Instruction.mk true 0x33 "RLA" AddressingMode.indirectIndexed 8 HandlerTag.rla,
  Instruction.mk false 0x34 "NOP" AddressingMode.zeroPageX 4 HandlerTag.nop,
  Instruction.mk false 0x35 "AND" AddressingMode.zeroPageX 4 HandlerTag.andOp,
  Instruction.mk false 0x36 "ROL" AddressingMode.zeroPageX 6 HandlerTag.rol,
  Instruction.mk true 0x37 "RLA" AddressingMode.zeroPageX 6 HandlerTag.rla,
  Instruction.mk false 0x38 "SEC" AddressingMode.implied 2 HandlerTag.sec,
  Instruction.mk false 0x39 "AND" AddressingMode.absoluteY 4 HandlerTag.andOp,
  Instruction.mk false 0x3A "NOP" AddressingMode.implied 2 HandlerTag.nop,
  Instruction.mk true 0x3B "RLA" AddressingMode.absoluteY 7 HandlerTag.rla,
  Instruction.mk false 0x3C "NOP" AddressingMode.absoluteX 4 HandlerTag.nop,
  Instruction.mk false 0x3D "AND" AddressingMode.absoluteX 4 HandlerTag.andOp,
  Instruction.mk false 0x3E "ROL" AddressingMode.absoluteX 7 HandlerTag.rol,
  Instruction.mk true 0x3F "RLA" AddressingMode.absoluteX 7 HandlerTag.rla
]

def instrRows2 : List Instruction := [
  Instruction.mk false 0x40 "RTI" AddressingMode.implied 6 HandlerTag.rti,
  Instruction.mk false 0x41 "EOR" AddressingMode.indexedIndirect 6 HandlerTag.eor,
  Instruction.mk true 0x42 "KIL" AddressingMode.implied 2 HandlerTag.kil,
  Instruction.mk true 0x43 "SRE" AddressingMode.indexedIndirect 8 HandlerTag.sre,
  Instruction.mk false 0x44 "NOP" AddressingMode.zeroPage 3 HandlerTag.nop,
  Instruction.mk false 0x45 "EOR" AddressingMode.zeroPage 3 HandlerTag.eor,
  Instruction.mk false 0x46 "LSR" AddressingMode.zeroPage 5 HandlerTag.lsr,
  Instruction.mk true 0x47 "SRE" AddressingMode.zeroPage 5 HandlerTag.sre,
  Instruction.mk false 0x48 "PHA" AddressingMode.implied 3 HandlerTag.pha,
  Instruction.mk false 0x49 "EOR" AddressingMode.immediate 2 HandlerTag.eor,
  Instruction.mk false 0x4A "LSR" AddressingMode.implied 2 HandlerTag.lsr,
  Instruction.mk true 0x4B "ALR" AddressingMode.immediate 2 HandlerTag.alr,
  Instruction.mk false 0x4C "JMP" AddressingMode.absolute 3 HandlerTag.jmp,
  Instruction.mk false 0x4D "EOR" AddressingMode.absolute 4 HandlerTag.eor,
  Instruction.mk false 0x4E "LSR" AddressingMode.absolute 6 HandlerTag.lsr,
  Instruction.mk true 0x4F "SRE" AddressingMode.absolute 6 HandlerTag.sre,
  Instruction.mk false 0x50 "BVC" AddressingMode.relative 2 HandlerTag.bvc,
  Instruction.mk false 0x51 "EOR" AddressingMode.indirectIndexed 5 HandlerTag.eor,
  Instruction.mk true 0x52 "KIL" AddressingMode.implied 2 HandlerTag.kil,
  Instruction.mk true 0x53 "SRE" AddressingMode.indirectIndexed 8 HandlerTag.sre,
  Instruction.mk false 0x54 "NOP" AddressingMode.zeroPageX 4 HandlerTag.nop,
  Instruction.mk false 0x55 "EOR" AddressingMode.zeroPageX 4 HandlerTag.eor,
  Instruction.mk false 0x56 "LSR" AddressingMode.zeroPageX 6 HandlerTag.lsr,
  Instruction.mk true 0x57 "SRE" AddressingMode.zeroPageX 6 HandlerTag.sre,
  Instruction.mk false 0x58 "CLI" AddressingMode.implied 2 HandlerTag.cli,
  Instruction.mk false 0x59 "EOR" AddressingMode.absoluteY 4 HandlerTag.eor,
  Instruction.mk false 0x5A "NOP" AddressingMode.implied 2 HandlerTag.nop,
  Instruction.mk true 0x5B "SRE" AddressingMode.absoluteY 7 HandlerTag.sre,
  Instruction.mk false 0x5C "NOP" AddressingMode.absoluteX 4 HandlerTag.nop,
  Instruction.mk false 0x5D "EOR" AddressingMode.absoluteX 4 HandlerTag.eor,
  Instruction.mk false 0x5E "LSR" AddressingMode.absoluteX 7 HandlerTag.lsr,
  Instruction.mk true 0x5F "SRE" AddressingMode.absoluteX 7 HandlerTag.sre
]

def instrRows3 : List Instruction := [
  Instruction.mk false 0x60 "RTS" AddressingMode.implied 6 HandlerTag.rts,
  Instruction.mk false 0x61 "ADC" AddressingMode.indexedIndirect 6 HandlerTag.adc,
  Instruction.mk true 0x62 "KIL" AddressingMode.implied 2 HandlerTag.kil,
  Instruction.mk true 0x63 "RRA" AddressingMode.indexedIndirect 8 HandlerTag.rra,
  Instruction.mk false 0x64 "NOP" AddressingMode.zeroPage 3 HandlerTag.nop,
  Instruction.mk false 0x65 "ADC" AddressingMode.zeroPage 3 HandlerTag.adc,
  Instruction.mk false 0x66 "ROR" AddressingMode.zeroPage 5 HandlerTag.ror,
  Instruction.mk true 0x67 "RRA" AddressingMode.zeroPage 5 HandlerTag.rra,
  Instruction.mk false 0x68 "PLA" AddressingMode.implied 4 HandlerTag.pla,
  Instruction.mk false 0x69 "ADC" AddressingMode.immediate 2 HandlerTag.adc,
  Instruction.mk false 0x6A "RORA" AddressingMode.implied 2 HandlerTag.rorA,
  Instruction.mk true 0x6B "ARR" AddressingMode.immediate 2 HandlerTag.arr,
  Instruction.mk false 0x6C "JMP" AddressingMode.indirect 5 HandlerTag.jmp,
  Instruction.mk false 0x6D "ADC" AddressingMode.absolute 4 HandlerTag.adc,
  Instruction.mk false 0x6E "ROR" AddressingMode.absolute 6 HandlerTag.ror,
  Instruction.mk true 0x6F "RRA" AddressingMode.absolute 6 HandlerTag.rra,
  Instruction.mk false 0x70 "BVS" AddressingMode.relative 2 HandlerTag.bvs,
  Instruction.mk false 0x71 "ADC" AddressingMode.indirectIndexed 5 HandlerTag.adc,
  Instruction.mk true 0x72 "KIL" AddressingMode.implied 2 HandlerTag.kil,
  Instruction.mk true 0x73 "RRA" AddressingMode.indirectIndexed 8 HandlerTag.rra,
  Instruction.mk false 0x74 "NOP" AddressingMode.zeroPageX 4 HandlerTag.nop,
  Instruction.mk false 0x75 "ADC" AddressingMode.zeroPageX 4 HandlerTag.adc,
  Instruction.mk false 0x76 "ROR" AddressingMode.zeroPageX 6 HandlerTag.ror,
  Instruction.mk true 0x77 "RRA" AddressingMode.zeroPageX 6 HandlerTag.rra,
  Instruction.mk false 0x78 "SEI" AddressingMode.implied 2 HandlerTag.sei,
  Instruction.mk false 0x79 "ADC" AddressingMode.absoluteY 4 HandlerTag.adc,
  Instruction.mk false 0x7A "NOP" AddressingMode.implied 2 HandlerTag.nop,
  Instruction.mk true 0x7B "RRA" AddressingMode.absoluteY 7 HandlerTag.rra,
  Instruction.mk false 0x7C "NOP" AddressingMode.absoluteX 4 HandlerTag.nop,
  Instruction.mk false 0x7D "ADC" AddressingMode.absoluteX 4 HandlerTag.adc,
  Instruction.mk false 0x7E "ROR" AddressingMode.absoluteX 7 HandlerTag.ror,
  Instruction.mk true 0x7F "RRA" AddressingMode.absoluteX 7 HandlerTag.rra
]

def instrRows4 : List Instruction := [
  Instruction.mk false 0x80 "NOP" AddressingMode.immediate 2 HandlerTag.nop,
  Instruction.mk false 0x81 "STA" AddressingMode.indexedIndirect 6 HandlerTag.sta,
  Instruction.mk false 0x82 "NOP" AddressingMode.immediate 2 HandlerTag.nop,
  Instruction.mk true 0x83 "SAX" AddressingMode.indexedIndirect 6 HandlerTag.sax,
  Instruction.mk false 0x84 "STY" AddressingMode.zeroPage 3 HandlerTag.sty,
  Instruction.mk false 0x85 "STA" AddressingMode.zeroPage 3 HandlerTag.sta,
  Instruction.mk false 0x86 "STX" AddressingMode.zeroPage 3 HandlerTag.stx,
  Instruction.mk true 0x87 "SAX" AddressingMode.zeroPage 3 HandlerTag.sax,
  Instruction.mk false 0x88 "DEY" AddressingMode.implied 2 HandlerTag.dey,
  Instruction.mk false 0x89 "NOP" AddressingMode.immediate 2 HandlerTag.nop,
  Instruction.mk false 0x8A "TXA" AddressingMode.implied 2 HandlerTag.txa,
  Instruction.mk true 0x8B "XAA" AddressingMode.immediate 2 HandlerTag.xaa,
  Instruction.mk false 0x8C "STY" AddressingMode.absolute 4 HandlerTag.sty,
  Instruction.mk false 0x8D "STA" AddressingMode.absolute 4 HandlerTag.sta,
  Instruction.mk false 0x8E "STX" AddressingMode.absolute 4 HandlerTag.stx,
  Instruction.mk true 0x8F "SAX" AddressingMode.absolute 4 HandlerTag.sax,
  Instruction.mk false 0x90 "BCC" AddressingMode.relative 2 HandlerTag.bcc,
  Instruction.mk false 0x91 "STA" AddressingMode.indirectIndexed 6 HandlerTag.sta,
  Instruction.mk true 0x92 "KIL" AddressingMode.implied 2 HandlerTag.kil,
  Instruction.mk true 0x93 "AHX" AddressingMode.indirectIndexed 6 HandlerTag.ahx,
  Instruction.mk false 0x94 "STY" AddressingMode.zeroPageX 4 HandlerTag.sty,
  Instruction.mk false 0x95 "STA" AddressingMode.zeroPageX 4 HandlerTag.sta,
  Instruction.mk false 0x96 "STX" AddressingMode.zeroPageY 4 HandlerTag.stx,
  Instruction.mk true 0x97 "SAX" AddressingMode.zeroPageY 4 HandlerTag.sax,
  Instruction.mk false 0x98 "TYA" AddressingMode.implied 2 HandlerTag.tya,
  Instruction.mk false 0x99 "STA" AddressingMode.absoluteY 5 HandlerTag.sta,
  Instruction.mk false 0x9A "TXS" AddressingMode.implied 2 HandlerTag.txs,
  Instruction.mk true 0x9B "TAS" AddressingMode.absoluteY 5 HandlerTag.tas,
  Instruction.mk true 0x9C "SHY" AddressingMode.absoluteX 5 HandlerTag.shy,
  Instruction.mk false 0x9D "STA" AddressingMode.absoluteX 5 HandlerTag.sta,
  Instruction.mk true 0x9E "SHX" AddressingMode.absoluteY 5 HandlerTag.shx,
  Instruction.mk true 0x9F "AHX" AddressingMode.absoluteY 5 HandlerTag.ahx
]

def instrRows5 : List Instruction := [
  Instruction.mk false 0xA0 "LDY" AddressingMode.immediate 2 HandlerTag.ldy,
  Instruction.mk false 0xA1 "LDA" AddressingMode.indexedIndirect 6 HandlerTag.lda,
  Instruction.mk false 0xA2 "LDX" AddressingMode.immediate 2 HandlerTag.ldx,
  Instruction.mk true 0xA3 "LAX" AddressingMode.indexedIndirect 6 HandlerTag.lax,
  Instruction.mk false 0xA4 "LDY" AddressingMode.zeroPage 3 HandlerTag.ldy,
  Instruction.mk false 0xA5 "LDA" AddressingMode.zeroPage 3 HandlerTag.lda,
  Instruction.mk false 0xA6 "LDX" AddressingMode.zeroPage 3 HandlerTag.ldx,
  Instruction.mk true 0xA7 "LAX" AddressingMode.zeroPage 3 HandlerTag.lax,
  Instruction.mk false 0xA8 "TAY" AddressingMode.implied 2 HandlerTag.tay,
  Instruction.mk false 0xA9 "LDA" AddressingMode.immediate 2 HandlerTag.lda,
  Instruction.mk false 0xAA "TAX" AddressingMode.implied 2 HandlerTag.tax,
  Instruction.mk true 0xAB "LAX" AddressingMode.immediate 2 HandlerTag.lax,
  Instruction.mk false 0xAC "LDY" AddressingMode.absolute 4 HandlerTag.ldy,
  Instruction.mk false 0xAD "LDA" AddressingMode.absolute 4 HandlerTag.lda,
  Instruction.mk false 0xAE "LDX" AddressingMode.absolute 4 HandlerTag.ldx,
  Instruction.mk true 0xAF "LAX" AddressingMode.absolute 4 HandlerTag.lax,
  Instruction.mk false 0xB0 "BCS" AddressingMode.relative 2 HandlerTag.bcs,
  Instruction.mk false 0xB1 "LDA" AddressingMode.indirectIndexed 5 HandlerTag.lda,
  Instruction.mk true 0xB2 "KIL" AddressingMode.implied 2 HandlerTag.kil,
  Instruction.mk true 0xB3 "LAX" AddressingMode.indirectIndexed 5 HandlerTag.lax,
  Instruction.mk false 0xB4 "LDY" AddressingMode.zeroPageX 4 HandlerTag.ldy,
  Instruction.mk false 0xB5 "LDA" AddressingMode.zeroPageX 4 HandlerTag.lda,
  Instruction.mk false 0xB6 "LDX" AddressingMode.zeroPageY 4 HandlerTag.ldx,
  Instruction.mk true 0xB7 "LAX" AddressingMode.zeroPageY 4 HandlerTag.lax,
  Instruction.mk false 0xB8 "CLV" AddressingMode.implied 2 HandlerTag.clv,
  Instruction.mk false 0xB9 "LDA" AddressingMode.absoluteY 4 HandlerTag.lda,
  Instruction.mk false 0xBA "TSX" AddressingMode.implied 2 HandlerTag.tsx,
  Instruction.mk true 0xBB "LAS" AddressingMode.absoluteY 4 HandlerTag.las,
  Instruction.mk false 0xBC "LDY" AddressingMode.absoluteX 4 HandlerTag.ldy,
  Instruction.mk false 0xBD "LDA" AddressingMode.absoluteX 4 HandlerTag.lda,
  Instruction.mk false 0xBE "LDX" AddressingMode.absoluteY 4 HandlerTag.ldx,
  Instruction.mk true 0xBF "LAX" AddressingMode.absoluteY 4 HandlerTag.lax
]

def instrRows6 : List Instruction := [
  Instruction.mk false 0xC0 "CPY" AddressingMode.immediate 2 HandlerTag.cpy,
  Instruction.mk false 0xC1 "CMP" AddressingMode.indexedIndirect 6 HandlerTag.cmp,
  Instruction.mk false 0xC2 "NOP" AddressingMode.immediate 2 HandlerTag.nop,
  Instruction.mk true 0xC3 "DCP" AddressingMode.indexedIndirect 8 HandlerTag.dcp,
  Instruction.mk false 0xC4 "CPY" AddressingMode.zeroPage 3 HandlerTag.cpy,
  Instruction.mk false 0xC5 "CMP" AddressingMode.zeroPage 3 HandlerTag.cmp,
  Instruction.mk false 0xC6 "DEC" AddressingMode.zeroPage 5 HandlerTag.decOp,
  Instruction.mk true 0xC7 "DCP" AddressingMode.zeroPage 5 HandlerTag.dcp,
  Instruction.mk false 0xC8 "INY" AddressingMode.implied 2 HandlerTag.iny,
  Instruction.mk false 0xC9 "CMP" AddressingMode.immediate 2 HandlerTag.cmp,
  Instruction.mk false 0xCA "DEX" AddressingMode.implied 2 HandlerTag.dex,
  Instruction.mk true 0xCB "AXS" AddressingMode.immediate 2 HandlerTag.axs,
  Instruction.mk false 0xCC "CPY" AddressingMode.absolute 4 HandlerTag.cpy,
  Instruction.mk false 0xCD "CMP" AddressingMode.absolute 4 HandlerTag.cmp,
  Instruction.mk false 0xCE "DEC" AddressingMode.absolute 6 HandlerTag.decOp,
  Instruction.mk true 0xCF "DCP" AddressingMode.absolute 6 HandlerTag.dcp,
  Instruction.mk false 0xD0 "BNE" AddressingMode.relative 2 HandlerTag.bne,
  Instruction.mk false 0xD1 "CMP" AddressingMode.indirectIndexed 5 HandlerTag.cmp,
  Instruction.mk true 0xD2 "KIL" AddressingMode.implied 2 HandlerTag.kil,
  Instruction.mk true 0xD3 "DCP" AddressingMode.indirectIndexed 8 HandlerTag.dcp,
  Instruction.mk false 0xD4 "NOP" AddressingMode.zeroPageX 4 HandlerTag.nop,
  Instruction.mk false 0xD5 "CMP" AddressingMode.zeroPageX 4 HandlerTag.cmp,
  Instruction.mk false 0xD6 "DEC" AddressingMode.zeroPageX 6 HandlerTag.decOp,
  Instruction.mk true 0xD7 "DCP" AddressingMode.zeroPageX 6 HandlerTag.dcp,
  Instruction.mk false 0xD8 "CLD" AddressingMode.implied 2 HandlerTag.cld,
  Instruction.mk false 0xD9 "CMP" AddressingMode.absoluteY 4 HandlerTag.cmp,
  Instruction.mk false 0xDA "NOP" AddressingMode.implied 2 HandlerTag.nop,
  Instruction.mk true 0xDB "DCP" AddressingMode.absoluteY 7 HandlerTag.dcp,
  Instruction.mk false 0xDC "NOP" AddressingMode.absoluteX 4 HandlerTag.nop,
  Instruction.mk false 0xDD "CMP" AddressingMode.absoluteX 4 HandlerTag.cmp,
  Instruction.mk false 0xDE "DEC" AddressingMode.absoluteX 7 HandlerTag.decOp,
  Instruction.mk false 0xDF "DCP" AddressingMode.absoluteX 7 HandlerTag.dcp
]

def instrRows7 : List Instruction := [
  Instruction.mk false 0xE0 "CPX" AddressingMode.immediate 2 HandlerTag.cpx,
  Instruction.mk false 0xE1 "SBC" AddressingMode.indexedIndirect 6 HandlerTag.sbc,
  Instruction.mk false 0xE2 "NOP" AddressingMode.immediate 2 HandlerTag.nop,
  Instruction.mk true 0xE3 "ISC" AddressingMode.indexedIndirect 8 HandlerTag.isc,
  Instruction.mk false 0xE4 "CPX" AddressingMode.zeroPage 3 HandlerTag.cpx,
  Instruction.mk false 0xE5 "SBC" AddressingMode.zeroPage 3 HandlerTag.sbc,
  Instruction.mk false 0xE6 "INC" AddressingMode.zeroPage 5 HandlerTag.inc,
  Instruction.mk true 0xE7 "ISC" AddressingMode.zeroPage 5 HandlerTag.isc,
  Instruction.mk false 0xE8 "INX" AddressingMode.implied 2 HandlerTag.inx,
  Instruction.mk false 0xE9 "SBC" AddressingMode.immediate 2 HandlerTag.sbc,
  Instruction.mk false 0xEA "NOP" AddressingMode.implied 2 HandlerTag.nop,
  Instruction.mk false 0xEB "SBC" AddressingMode.immediate 2 HandlerTag.sbc,
  Instruction.mk false 0xEC "CPX" AddressingMode.absolute 4 HandlerTag.cpx,
  Instruction.mk false 0xED "SBC" AddressingMode.absolute 4 HandlerTag.sbc,
  Instruction.mk false 0xEE "INC" AddressingMode.absolute 6 HandlerTag.inc,
  Instruction.mk true 0xEF "ISC" AddressingMode.absolute 6 HandlerTag.isc,
  Instruction.mk false 0xF0 "BEQ" AddressingMode.relative 2 HandlerTag.beq,
  Instruction.mk false 0xF1 "SBC" AddressingMode.indirectIndexed 5 HandlerTag.sbc,
  Instruction.mk true 0xF2 "KIL" AddressingMode.implied 2 HandlerTag.kil,
  Instruction.mk true 0xF3 "ISC" AddressingMode.indirectIndexed 8 HandlerTag.isc,
  Instruction.mk false 0xF4 "NOP" AddressingMode.zeroPageX 4 HandlerTag.nop,
  Instruction.mk false 0xF5 "SBC" AddressingMode.zeroPageX 4 HandlerTag.sbc,
  Instruction.mk false 0xF6 "INC" AddressingMode.zeroPageX 6 HandlerTag.inc,
  Instruction.mk true 0xF7 "ISC" AddressingMode.zeroPageX 6 HandlerTag.isc,
  Instruction.mk false 0xF8 "SED" AddressingMode.implied 2 HandlerTag.sed,
  Instruction.mk false 0xF9 "SBC" AddressingMode.absoluteY 4 HandlerTag.sbc,
  Instruction.mk false 0xFA "NOP" AddressingMode.implied 2 HandlerTag.nop,
  Instruction.mk true 0xFB "ISC" AddressingMode.absoluteY 7 HandlerTag.isc,
  Instruction.mk false 0xFC "NOP" AddressingMode.absoluteX 4 HandlerTag.nop,
  Instruction.mk false 0xFD "SBC" AddressingMode.absoluteX 4 HandlerTag.sbc,
  Instruction.mk false 0xFE "INC" AddressingMode.absoluteX 7 HandlerTag.inc,
  Instruction.mk true 0xFF "ISC" AddressingMode.absoluteX 7 HandlerTag.isc
]

/-- The 256-entry instruction table INSTRUCTION_LIST, transcribed row by
row from src/cpu/instructions.rs (in 32-row groups). -/
def INSTRUCTION_LIST : List Instruction :=
  instrRows0 ++ instrRows1 ++ instrRows2 ++ instrRows3 ++
  instrRows4 ++ instrRows5 ++ instrRows6 ++ instrRows7

/-- Table lookup INSTRUCTION_LIST[opcode as usize]; a u8 index is always
in bounds of the 256-entry table, so the default entry is never used. -/
def lookup (opcode : Nat) : Instruction :=
  INSTRUCTION_LIST.getD opcode ⟨false, 0x00, "BRK", .immediate, 7, .brk⟩

/-- get_cycles (src/cpu/instructions.rs). -/
def get_cycles (opcode : Nat) : Nat := (lookup opcode).cycles

/-- get_addr_mode (src/cpu/instructions.rs). -/
def get_addr_mode (opcode : Nat) : AddressingMode := (lookup opcode).mode

/-- get_illegal (src/cpu/instructions.rs). -/
def get_illegal (opcode : Nat) : Bool := (lookup opcode).illegal

namespace Cpu

/-- Cpu::execute_addr_mode: record the mode, run it, and convert the
extra-cycle flag to 1 or 0. -/
def execute_addr_mode (c : Cpu) (mode : AddressingMode) : Cpu × Nat :=
  let c := { c with address_mode := mode }
  let (c, extra_cycle) := mode.execute c
  (c, if extra_cycle then 1 else 0)

/-- Cpu::execute_instruction: run the handler from the table row. -/
def execute_instruction (c : Cpu) (opcode : Nat) : Cpu × Nat :=
  runHandler (lookup opcode).function c

/-- Cpu::clock (src/cpu/mod.rs), without the debug printing and the
disassembly string (neither changes machine state): when no cycles are
pending, fetch and decode the opcode at pc, run the addressing mode and
the handler, and set the cycle counter to base + addressing extra +
handler extra; in every case the counter is then decremented once. -/
def clock (c : Cpu) : Cpu :=
  if c.cycles = 0 then
    let opcode := c.read8 c.pc
    let c := { c with opcode := opcode, pc := reg16Add c.pc 1 }
    let c := { c with cycles := get_cycles opcode, address_mode := get_addr_mode opcode }
    let (c, cycles_address_mode) := c.execute_addr_mode (get_addr_mode opcode)
    let (c, cycles_instruction) := c.execute_instruction opcode
    let c := { c with cycles := c.cycles + cycles_address_mode + cycles_instruction }
    { c with cycles := c.cycles - 1 }
  else
    { c with cycles := c.cycles - 1 }

end Cpu

/-- A device on the main bus (struct BusDevice in src/bus/mod.rs). -/
structure BusDevice where
  startAddress : Nat
  endAddress : Nat
  is_memory : Bool
  data : List Nat

/-- BusDevice::read: index the backing data when the address is inside
the inclusive range, 0 otherwise. -/
def BusDevice.read (d : BusDevice) (address : Nat) : Nat :=
  if d.startAddress ≤ address ∧ address ≤ d.endAddress then
    d.data.getD (address - d.startAddress) 0
  else 0

/-- BusDevice::write: update the backing data when the address is inside
the inclusive range (the source panics otherwise; the bus only calls it
on a matching device). -/
def BusDevice.write (d : BusDevice) (address value : Nat) : BusDevice :=
  if d.startAddress ≤ address ∧ address ≤ d.endAddress then
    { d with data := d.data.set (address - d.startAddress) value }
  else d

/-- The main bus (struct MainBus in src/bus/mod.rs): an ordered device
list. -/
structure MainBus where
  devices : List BusDevice

/-- The device scan of MainBus::read: forward to the first device whose
inclusive range contains the address; 0 when no device matches. -/
def readDevices (address : Nat) : List BusDevice → Nat
  | [] => 0
  | d :: rest =>
      if d.startAddress ≤ address ∧ address ≤ d.endAddress then d.read address
      else readDevices address rest

/-- MainBus::read. -/
def MainBus.read (bus : MainBus) (address : Nat) : Nat :=
  readDevices address bus.devices

/-- The device scan of MainBus::write: forward to the first device whose
inclusive range contains the address; when no device matches the source
panics with the out-of-range address, modelled as an `Except.error`
carrying that address. -/
def writeDevices (address value : Nat) : List BusDevice → Except Nat (List BusDevice)
  | [] => Except.error address
  | d :: rest =>
      if d.startAddress ≤ address ∧ address ≤ d.endAddress then
        Except.ok (d.write address value :: rest)
      else
        match writeDevices address value rest with
        | Except.ok rest2 => Except.ok (d :: rest2)
        | Except.error e => Except.error e

/-- MainBus::write. -/
def MainBus.write (bus : MainBus) (address value : Nat) : Except Nat MainBus :=
  match writeDevices address value bus.devices with
  | Except.ok ds => Except.ok ⟨ds⟩
  | Except.error e => Except.error e

/-- An all-zero memory. -/
def mem0 : Nat → Nat := fun _ => 0

/-- The CPU state produced by Cpu::new (all registers and transient
state zero), over a given memory. -/
def baseCpu : Cpu :=
  { a := 0, x := 0, y := 0, p := 0, sp := 0, pc := 0, cycles := 0,
    address_absolute := 0, address_relative := 0,
    address_mode := AddressingMode.none, opcode := 0, fetched_data := 0,
    mem := mem0 }

/-- Concrete state for the LDA flag scenario: Carry, InterruptDisable
and Unused set, operand byte 0x00 at the resolved address. -/
def ldaZeroCpu : Cpu :=
  { baseCpu with
      p := 0x25,
      address_mode := AddressingMode.immediate,
      address_absolute := 0x10,
      mem := fun a => if a = 0x20 then 0x42 else 0 }

/-- Concrete state for the LDX scenario: operand byte 0x42 at the
resolved address, X = 0. -/
def ldxCpu : Cpu :=
  { baseCpu with
      p := 0x25,
      address_mode := AddressingMode.immediate,
      address_absolute := 0x20,
      mem := fun a => if a = 0x20 then 0x42 else 0 }

/-- Concrete state for the IRQ scenario: InterruptDisable clear,
pc = 0x1234, sp = 0xFD, IRQ vector pointing at 0x8000. -/
def irqCpu : Cpu :=
  { baseCpu with
      pc := 0x1234,
      sp := 0xFD,
      mem := fun a => if a = 0xFFFF then 0x80 else 0 }

/-- Concrete state for the Indirect Indexed scenario: zero-page pointer
byte 0x10 at pc, pointer target 0x12FF, Y = 1. -/
def indYCpu : Cpu :=
  { baseCpu with
      pc := 0x0200,
      y := 1,
      mem := fun a => if a = 0x0200 then 0x10 else if a = 0x10 then 0xFF
        else if a = 0x11 then 0x12 else 0 }

/-- Concrete state for the first Absolute,X example: 16-bit operand
0x00F0 at pc, X = 0x20. -/
def absXCpu1 : Cpu :=
  { baseCpu with
      pc := 0x0300,
      x := 0x20,
      mem := fun a => if a = 0x0300 then 0xF0 else 0 }

/-- Concrete state for the second Absolute,X example: 16-bit operand
0x00FF at pc, X = 0x01. -/
def absXCpu2 : Cpu :=
  { baseCpu with
      pc := 0x0300,
      x := 0x01,
      mem := fun a => if a = 0x0300 then 0xFF else 0 }

/-- Concrete state for the Unused-bit scenario: reset vector pointing at
0x8000, opcode 0xA9 (LDA immediate) there with operand byte 0x00. -/
def unusedCpu : Cpu :=
  { baseCpu with
      mem := fun a =>
        if a = 0xFFFD then 0x80 else if a = 0x8000 then 0xA9 else 0 }

/-- Concrete state for the stack round-trip scenario: sp = 0x01, all
memory (including the stack page) zero and writable. -/
def stackCpu : Cpu := { baseCpu with sp := 0x01 }

/-- Concrete state for the indirect-JMP scenario: reset vector pointing
at 0x0400, opcode 0x6C (JMP indirect) there with pointer operand 0x30FF,
memory 0x30FF = 0x40 and 0x3000 = 0x80. -/
def jmpIndCpu : Cpu :=
  { baseCpu with
      mem := fun a =>
        if a = 0xFFFD then 0x04 else
        if a = 0x0400 then 0x6C else
        if a = 0x0401 then 0xFF else
        if a = 0x0402 then 0x30 else
        if a = 0x30FF then 0x40 else
        if a = 0x3000 then 0x80 else 0 }

/-- A one-device bus mapping only 0x0000-0x00FF, for the unmapped-access
scenario. -/
def ramBus : MainBus := MainBus.mk [BusDevice.mk 0x0000 0x00FF true []]

/-- C1: the claim states that executing LDA/LDX/LDY sets the target
register to the byte at the effective address, sets Zero and Negative
from that byte, and leaves every other status bit unchanged.  The code
diverges: dispatching opcode 0xA9 (LDA) on a state with Carry,
InterruptDisable and Unused set and a loaded byte of 0x00 leaves the
status register equal to exactly 0x02 (all other bits wiped, because
Cpu::set_flag replaces the whole register when setting a flag), and
dispatching opcode 0xA2 (LDX) leaves X = 0 and the flags untouched even
though the byte at the effective address is 0x42 (ldx is a stub). -/
theorem c1_load_instructions_divergence :
    (Cpu.execute_instruction ldaZeroCpu 0xA9).1.p = 0x02
    ∧ (Cpu.execute_instruction ldxCpu 0xA2).1.x = 0x00
    ∧ (Cpu.execute_instruction ldxCpu 0xA2).1.p = ldxCpu.p
    ∧ ldxCpu.read8 ldxCpu.address_absolute = 0x42 := by
  decide

/-- C2: the claim states that interrupt servicing leaves
InterruptDisable set afterwards.  The code diverges: on a state with
InterruptDisable clear, pc = 0x1234, sp = 0xFD and the IRQ vector
holding 0x8000, irq() pushes 0x12 then 0x34 then a status byte of 0x04,
loads pc = 0x8000, sets the cycle counter to 7 — but finishes with
InterruptDisable CLEAR (the status register ends at 0x00, because
do_interrupt clears the flag again after pushing the status). -/
theorem c2_interrupt_divergence :
    (irqCpu.irq).mem 0x1FD = 0x12
    ∧ (irqCpu.irq).mem 0x1FC = 0x34
    ∧ (irqCpu.irq).mem 0x1FB = 0x04
    ∧ (irqCpu.irq).pc = 0x8000
    ∧ (irqCpu.irq).cycles = 7
    ∧ (irqCpu.irq).sp = 0xFA
    ∧ (irqCpu.irq).p = 0x00
    ∧ (irqCpu.irq).p &&& StatusFlags.InterruptDisable = 0 := by
  decide

/-- C3: the claim states that Indirect Indexed (Y) resolution sets the
effective address to the dereferenced base plus Y and reports an extra
cycle on a page crossing.  The code diverges: with a zero-page pointer
at pc dereferencing to base 0x12FF and Y = 1, the effective address is
0x12FF (Y is never added) and no extra cycle is reported (the
page-cross comparison is made against the base itself, so it is
vacuously false); pc does advance by 1. -/
theorem c3_indirect_indexed_divergence :
    (AddressingMode.indirectIndexed.execute indYCpu).1.address_absolute = 0x12FF
    ∧ (AddressingMode.indirectIndexed.execute indYCpu).2 = false
    ∧ (AddressingMode.indirectIndexed.execute indYCpu).1.pc = 0x0201
    ∧ indYCpu.y = 1 := by
  decide

/-- C5: the claim states that, starting from reset, the Unused status
bit stays set across every operation.  The code diverges: reset does set
Unused (status 0x24), but executing the very next instruction LDA #$00
through clock() leaves the status register equal to 0x02 with Unused
clear (Cpu::set_flag replaces the whole register when setting Zero). -/
theorem c5_unused_flag_divergence :
    (unusedCpu.reset).p &&& StatusFlags.Unused = StatusFlags.Unused
    ∧ (unusedCpu.reset.clock).p = 0x02
    ∧ (unusedCpu.reset.clock).p &&& StatusFlags.Unused = 0 := by
  decide

/-- C6: the claim states that push_word followed by pop_word returns the
pushed 16-bit value and restores the stack pointer, for every starting
stack pointer.  The code diverges at sp = 0x01: pushing 0x1234 leaves
sp = 0x00 (decrement_sp forces a wrapped 0xFF back to 0x00), and the
immediate pop_word returns 0x0012 with sp = 0x02 instead of returning
0x1234 with sp = 0x01. -/
theorem c6_stack_roundtrip_divergence :
    stackCpu.sp = 0x01
    ∧ (stackCpu.push_word 0x1234).sp = 0x00
    ∧ ((stackCpu.push_word 0x1234).pop_word).2 = 0x0012
    ∧ ((stackCpu.push_word 0x1234).pop_word).1.sp = 0x02 := by
  decide

/-- C4 counterexample: the claim states that Absolute,X with base
0x00F0 and X = 0x20 yields effective address 0x0110 with ZERO extra
cycles.  In the code this resolution yields 0x0110 with the extra-cycle
flag TRUE, because the high byte of 0x0110 differs from the high byte
of 0x00F0 — a page crossing by the claim's own general rule. -/
theorem c4_absolute_x_counterexample :
    (AddressingMode.absoluteX.execute absXCpu1).1.address_absolute = 0x0110
    ∧ (AddressingMode.absoluteX.execute absXCpu1).2 = true := by
  decide

/-- C4 amended: resolving Absolute,X adds X to the 16-bit operand
(wrapping at 16 bits), advances pc by 2, and owes an extra cycle iff
the high byte of the final address differs from the high byte of the
base; base 0x00F0 with X = 0x20 yields 0x0110 with ONE extra cycle
(page cross), and base 0x00FF with X = 0x01 yields 0x0100 with one
extra cycle. -/
theorem c4_absolute_x_amended :
    (∀ c : Cpu,
      (AddressingMode.absoluteX.execute c).1.address_absolute
          = reg16Add (c.read16 c.pc) c.x
      ∧ (AddressingMode.absoluteX.execute c).1.pc = reg16Add c.pc 2
      ∧ ((AddressingMode.absoluteX.execute c).2 = true ↔
          reg16Add (c.read16 c.pc) c.x &&& 0xFF00 ≠ c.read16 c.pc &&& 0xFF00))
    ∧ ((AddressingMode.absoluteX.execute absXCpu1).1.address_absolute = 0x0110
       ∧ (AddressingMode.absoluteX.execute absXCpu1).2 = true)
    ∧ ((AddressingMode.absoluteX.execute absXCpu2).1.address_absolute = 0x0100
       ∧ (AddressingMode.absoluteX.execute absXCpu2).2 = true) := by
  refine ⟨fun c => ⟨rfl, rfl, ?_⟩, by decide, by decide⟩
  simp [AddressingMode.execute, bne_iff_ne]

/-- C7: resolving Indirect reads a 16-bit pointer from the two bytes at
pc (low then high), then the 16-bit target from the pointer location,
advancing pc by 2 and owing no extra cycle; when the pointer's low byte
is 0xFF the target's high byte is read from the start of the pointer's
own page (the hardware bug) instead of the following address.
Concretely, starting at a reset state whose program is JMP (0x30FF)
with memory 0x30FF = 0x40 and 0x3000 = 0x80, one clock() lands
pc on 0x8040, not on a value using 0x3100. -/
theorem c7_indirect_jmp_bug :
    (∀ c : Cpu,
      (AddressingMode.indirect.execute c).1.pc = reg16Add c.pc 2
      ∧ (AddressingMode.indirect.execute c).2 = false
      ∧ (AddressingMode.indirect.execute c).1.address_absolute =
          (if c.read8 c.pc = 0xFF then
            (c.read8 (((c.read8 (reg16Add c.pc 1)) <<< 8 ||| c.read8 c.pc) &&& 0xFF00)) <<< 8
              ||| c.read8 ((c.read8 (reg16Add c.pc 1)) <<< 8 ||| c.read8 c.pc)
          else
            (c.read8 (reg16Add ((c.read8 (reg16Add c.pc 1)) <<< 8 ||| c.read8 c.pc) 1)) <<< 8
              ||| c.read8 ((c.read8 (reg16Add c.pc 1)) <<< 8 ||| c.read8 c.pc)))
    ∧ jmpIndCpu.reset.pc = 0x0400
    ∧ jmpIndCpu.mem 0x30FF = 0x40
    ∧ jmpIndCpu.mem 0x3000 = 0x80
    ∧ (jmpIndCpu.reset.clock).pc = 0x8040 := by
  refine ⟨fun c => ?_, by decide, by decide, by decide, by decide⟩
  by_cases h : c.read8 c.pc = 0xFF <;>
    simp [AddressingMode.execute, h]

set_option maxRecDepth 20000 in
/-- C8: for every opcode value 0-255, the instruction-table lookup
yields a descriptor (mnemonic, addressing mode, base cycle count,
illegal flag, handler) whose base cycle count lies between 2 and 8
inclusive; the table has exactly 256 rows and each row is keyed by its
own opcode value. -/
theorem c8_opcode_table_cycles :
    INSTRUCTION_LIST.length = 256
    ∧ ∀ opcode : Fin 256,
        (lookup opcode.val).opcode = opcode.val
        ∧ 2 ≤ (lookup opcode.val).cycles
        ∧ (lookup opcode.val).cycles ≤ 8 := by
  constructor
  · rfl
  · decide

/-- Scanning the device list for a read finds no device when the address
lies in no registered range, so the scan returns 0. -/
theorem readDevices_unmapped (address : Nat) (ds : List BusDevice)
    (h : ∀ d ∈ ds, ¬ (d.startAddress ≤ address ∧ address ≤ d.endAddress)) :
    readDevices address ds = 0 := by
  induction ds with
  | nil => rfl
  | cons d rest ih =>
      have hd := h d (List.mem_cons_self d rest)
      simp only [readDevices, if_neg hd]
      exact ih fun d2 h2 => h d2 (List.mem_cons_of_mem d h2)

/-- Scanning the device list for a write finds no device when the
address lies in no registered range, so the scan reports the
out-of-range fault. -/
theorem writeDevices_unmapped (address value : Nat) (ds : List BusDevice)
    (h : ∀ d ∈ ds, ¬ (d.startAddress ≤ address ∧ address ≤ d.endAddress)) :
    writeDevices address value ds = Except.error address := by
  induction ds with
  | nil => rfl
  | cons d rest ih =>
      have hd := h d (List.mem_cons_self d rest)
      simp only [writeDevices, if_neg hd]
      rw [ih fun d2 h2 => h d2 (List.mem_cons_of_mem d h2)]

/-- C9: for every bus and every address contained in no registered
device's inclusive range, MainBus::read returns 0x00 without failing,
and MainBus::write signals a fatal out-of-range fault (carrying the
offending address) rather than silently dropping the write. -/
theorem c9_unmapped_bus_policy (bus : MainBus) (address value : Nat)
    (h : ∀ d ∈ bus.devices, ¬ (d.startAddress ≤ address ∧ address ≤ d.endAddress)) :
    bus.read address = 0 ∧ bus.write address value = Except.error address := by
  constructor
  · exact readDevices_unmapped address bus.devices h
  · simp only [MainBus.write, writeDevices_unmapped address value bus.devices h]

/-- C9 witness: on a bus with a single device covering 0x0000-0x00FF,
reading the unmapped address 0x1234 yields 0 and writing it yields the
out-of-range fault. -/
theorem c9_unmapped_bus_policy_witness :
    ramBus.read 0x1234 = 0 ∧ ramBus.write 0x1234 0x07 = Except.error 0x1234 :=
  c9_unmapped_bus_policy ramBus 0x1234 0x07 (by decide)

/-- C10: the address and register arithmetic is total at the domain
boundaries: read16 at 0xFFFF fetches its high byte from address 0x0000
(u16 wrap) instead of failing, its result always fits in 16 bits, and
the wrapping register helpers wrap at 0xFF / 0xFFFF: 0xFF + 1 = 0x00
and 0x00 - 1 = 0xFF on 8 bits, 0xFFFF + 1 = 0x0000 on 16 bits, with
every result inside the register's range. -/
theorem c10_boundary_wrapping :
    (∀ c : Cpu, c.read16 0xFFFF = (c.read8 0x0000) <<< 8 ||| c.read8 0xFFFF)
    ∧ (∀ c : Cpu, ∀ address : Nat, c.read16 address < 65536)
    ∧ reg8Add 0xFF 1 = 0x00
    ∧ reg8Sub 0x00 1 = 0xFF
    ∧ reg16Add 0xFFFF 1 = 0x0000
    ∧ (∀ v rhs : Nat,
        reg8Add v rhs < 256 ∧ reg8Sub v rhs < 256 ∧ reg16Add v rhs < 65536) := by
  refine ⟨fun c => rfl, fun c address => ?_, by decide, by decide, by decide,
    fun v rhs => ⟨Nat.mod_lt _ (by norm_num), Nat.mod_lt _ (by norm_num),
      Nat.mod_lt _ (by norm_num)⟩⟩
  have hhi : (c.read8 (reg16Add address 1)) <<< 8 < 2 ^ 16 := by
    have : c.read8 (reg16Add address 1) < 256 := Nat.mod_lt _ (by norm_num)
    simp only [Nat.shiftLeft_eq]
    omega
  have hlo : c.read8 address < 2 ^ 16 := by
    have : c.read8 address < 256 := Nat.mod_lt _ (by norm_num)
    omega
  simpa using Nat.or_lt_two_pow hhi hlo
